import Mathlib

/-!
Verification of the memtrace tracing core (src/memtrace/MemTraceDll.cpp).

The development shallowly embeds the wire codec (SerializeType and the
SerNum helpers), the channel manager (TryOpenPipe / WriteToPipe / ClosePipe),
the trace hooks (RtlAllocateHeapHook / RtlFreeHeapHook), InstallHooks and the
lifecycle controller (ProcessAttach).  Machine integers are modelled as Nat
with explicit truncation (% 2^16, % 2^32) where the C code casts; records in
memory are modelled as byte maps Nat → Nat, matching the byte-by-byte copies the
serializers perform on a little-endian 32-bit target.
-/

namespace MemTrace

/-- A byte: a Nat, kept < 256 by construction of every producer. -/
abbrev Byte := Nat

/-- enum SerializeMsgId { AllocDataMsgId = 1, FreeDataMsgId = 2 }. -/
inductive SerializeMsgId where
  | AllocDataMsgId
  | FreeDataMsgId
deriving DecidableEq, Repr

/-- The numeric value of a SerializeMsgId. -/
def SerializeMsgId.toNat : SerializeMsgId → Nat
  | .AllocDataMsgId => 1
  | .FreeDataMsgId => 2

/-- MemberSerializeInfo::Type from the source. -/
inductive MemberType where
  | UInt16
  | Int32
  | UInt32
  | Int64
  | UInt64
  | Sentinel
deriving DecidableEq, Repr

/-- struct MemberSerializeInfo { Type type; int offset; }. -/
structure MemberSerializeInfo where
  type : MemberType
  offset : Nat
deriving DecidableEq, Repr

/-- MemberSerializeInfo::IsSentinel. -/
def MemberSerializeInfo.IsSentinel (m : MemberSerializeInfo) : Bool :=
  m.type == MemberType.Sentinel

/-- struct TypeSerializeInfo { SerializeMsgId msgId; MemberSerializeInfo *members; }.
The member array in C is sentinel-terminated; here it is a list whose
traversal stops at the sentinel, as the C loop does. -/
structure TypeSerializeInfo where
  msgId : SerializeMsgId
  members : List MemberSerializeInfo

/-- struct AllocData { uint32 size; uint32 addr; }. -/
structure AllocData where
  size : Nat
  addr : Nat
deriving DecidableEq, Repr

/-- struct FreeData { uint32 addr; }. -/
structure FreeData where
  addr : Nat
deriving DecidableEq, Repr

/-- The in-memory bytes of an AllocData value on the 32-bit little-endian
target: size occupies offsets 0..3 (offsetof = 0), addr offsets 4..7
(offsetof = 4). -/
def AllocData.mem (d : AllocData) (off : Nat) : Byte :=
  if off < 4 then d.size / 256 ^ off % 256
  else d.addr / 256 ^ (off - 4) % 256

/-- The in-memory bytes of a FreeData value: addr at offsets 0..3. -/
def FreeData.mem (d : FreeData) (off : Nat) : Byte :=
  d.addr / 256 ^ off % 256

/-- The in-memory bytes of a uint16 value on the little-endian target,
used when SerializeType serializes the msgId through SerNum16. -/
def uint16mem (n : Nat) (off : Nat) : Byte :=
  n / 256 ^ off % 256

/-- allocDataSerMemberInfo: two UInt32 members (offsets 0 and 4) plus the
sentinel. -/
def allocDataSerMemberInfo : List MemberSerializeInfo :=
  [⟨MemberType.UInt32, 0⟩, ⟨MemberType.UInt32, 4⟩, ⟨MemberType.Sentinel, 0⟩]

/-- allocDataTypeInfo = { AllocDataMsgId, allocDataSerMemberInfo }. -/
def allocDataTypeInfo : TypeSerializeInfo :=
  ⟨SerializeMsgId.AllocDataMsgId, allocDataSerMemberInfo⟩

/-- freeDataSerMemberInfo: one UInt32 member (offset 0) plus the sentinel. -/
def freeDataSerMemberInfo : List MemberSerializeInfo :=
  [⟨MemberType.UInt32, 0⟩, ⟨MemberType.Sentinel, 0⟩]

/-- freeDataTypeInfo = { FreeDataMsgId, freeDataSerMemberInfo }. -/
def freeDataTypeInfo : TypeSerializeInfo :=
  ⟨SerializeMsgId.FreeDataMsgId, freeDataSerMemberInfo⟩

/-- SerNum16: appends the two bytes at data[off], data[off+1] to serOut and
returns the new buffer together with the byte count 2 (its C return value). -/
def SerNum16 (data : Nat → Byte) (off : Nat) (serOut : List Byte) : List Byte × Nat :=
  (serOut ++ [data off, data (off + 1)], 2)

/-- SerNum32: appends the four bytes at data[off..off+3] and returns 4. -/
def SerNum32 (data : Nat → Byte) (off : Nat) (serOut : List Byte) : List Byte × Nat :=
  (serOut ++ [data off, data (off + 1), data (off + 2), data (off + 3)], 4)

/-- SerNum64: appends the eight bytes at data[off..off+7] and returns 8.
Present in the source but never reached: SerializeType routes Int64/UInt64
through SerNum32. -/
def SerNum64 (data : Nat → Byte) (off : Nat) (serOut : List Byte) : List Byte × Nat :=
  (serOut ++ [data off, data (off + 1), data (off + 2), data (off + 3),
              data (off + 4), data (off + 5), data (off + 6), data (off + 7)], 8)

/-- The serialization loop of SerializeType: walks the member list in order,
stopping at the sentinel; UInt16 members go through SerNum16, Int32/UInt32
through SerNum32, and Int64/UInt64 also through SerNum32 (the known source
64-bit limitation).  Returns the extended buffer and the accumulated byte
count added to msgLen. -/
def serMembers (data : Nat → Byte) : List MemberSerializeInfo → List Byte → List Byte × Nat
  | [], msg => (msg, 0)
  | m :: rest, msg =>
    if m.IsSentinel then (msg, 0)
    else
      let step :=
        match m.type with
        | MemberType.UInt16 => SerNum16 data m.offset msg
        | MemberType.Int32 => SerNum32 data m.offset msg
        | MemberType.UInt32 => SerNum32 data m.offset msg
        | MemberType.Int64 => SerNum32 data m.offset msg
        | MemberType.UInt64 => SerNum32 data m.offset msg
        | MemberType.Sentinel => (msg, 0)
      let next := serMembers data rest step.1
      (next.1, step.2 + next.2)

/-- Modelled from the spec: Vec<byte>::Reset (Vec.h is not under src/).
The spec says SerializeType "fully overwrites/resets the output buffer on
each call"; Reset empties the buffer. -/
def vecReset (_ : List Byte) : List Byte := []

/-- Modelled from the spec: Vec<byte>::AppendBlanks(n) (Vec.h is not under
src/) grows the buffer by n bytes which the caller then writes; the reserved
length-field bytes are patched at the end of SerializeType. -/
def appendBlanks (v : List Byte) (n : Nat) : List Byte :=
  v ++ List.replicate n 0

/-- The two little-endian bytes of a uint16 value, as laid down by the final
store through msgLenPtr. -/
def le16 (n : Nat) : List Byte := [n % 256, n / 256 % 256]

/-- SerializeType: resets msg, reserves 2 bytes for the length, serializes
the 2-byte msgId, then the members per the schema, and finally stores
(uint16)msgLen into the reserved first two bytes.  msgLen starts at
2 + SerNum16(msgId) and accumulates the member byte counts. -/
def SerializeType (data : Nat → Byte) (typeInfo : TypeSerializeInfo)
    (msg : List Byte) : List Byte :=
  let msg0 := vecReset msg
  let msg1 := appendBlanks msg0 2
  let msgId := typeInfo.msgId.toNat
  let idStep := SerNum16 (uint16mem msgId) 0 msg1
  let msgLen0 := 2 + idStep.2
  let memStep := serMembers data typeInfo.members idStep.1
  let msgLen := msgLen0 + memStep.2
  le16 (msgLen % 65536) ++ memStep.1.drop 2

/-- Reads the uint16 at the head of a message, little-endian — the decoding
of the totalLength field at byte offset 0. -/
def decode16 (bs : List Byte) : Nat :=
  bs.headD 0 + 256 * (bs.tail.headD 0)

/-- Reads back the uint32 at byte offset off of a message in the native target (little-endian) order. -/
def read32 (bs : List Byte) (off : Nat) : Nat :=
  bs.getD off 0 + 256 * bs.getD (off + 1) 0 + 65536 * bs.getD (off + 2) 0
    + 16777216 * bs.getD (off + 3) 0

/-- The type of the real RtlAllocateHeap operation:
heapHandle → flags → size → returned pointer (all modelled as Nat). -/
abbrev AllocFn := Nat → Nat → Nat → Nat

/-- The type of the real RtlFreeHeap operation:
heapHandle → flags → heapBase → BOOLEAN result. -/
abbrev FreeFn := Nat → Nat → Nat → Bool

/-- The process-wide mutable globals of the tracer: the pipe handle gPipe,
the two original-entry-point slots, and observers of the pipe traffic
(bytes handed to WriteFile, number of WriteFile attempts) plus whether each
AddHook succeeded (whether the entry point was rewritten to the hook) and
whether InstallHooks ran at all. -/
structure SysState where
  gPipe : Option Unit
  pipeBytes : List Byte
  sendAttempts : Nat
  gRtlAllocateHeapOrig : Option AllocFn
  gRtlFreeHeapOrig : Option FreeFn
  allocHookInstalled : Bool
  freeHookInstalled : Bool
  installHooksExecuted : Bool

/-- The state at DLL load: no pipe, no original pointers, no hooks. -/
def initState : SysState :=
  { gPipe := none
    pipeBytes := []
    sendAttempts := 0
    gRtlAllocateHeapOrig := none
    gRtlFreeHeapOrig := none
    allocHookInstalled := false
    freeHookInstalled := false
    installHooksExecuted := false }

/-- str::Len is strlen: the number of bytes before the first NUL. -/
def strLen (s : List Byte) : Nat :=
  (s.takeWhile (fun b => b ≠ 0)).length

/-- WriteToPipe(s): if gPipe is null, returns false at once (nothing is
attempted); otherwise attempts WriteFile of strLen s bytes.  The outcome of
WriteFile is environment-determined: writeOk is its BOOL result and written
the byte count it reports; WriteToPipe returns true only when WriteFile
succeeded and wrote the full length.  pipeBytes and sendAttempts record what
was attempted on the OS handle. -/
def WriteToPipe (st : SysState) (s : List Byte) (writeOk : Bool) (written : Nat) :
    Bool × SysState :=
  match st.gPipe with
  | none => (false, st)
  | some _ =>
    let sLen := strLen s
    let st1 := { st with
      pipeBytes := st.pipeBytes ++ s.take sLen
      sendAttempts := st.sendAttempts + 1 }
    (writeOk && (written == sLen), st1)

/-- The bytes of the greeting string "hello, sailor" sent after connecting. -/
def greeting : List Byte :=
  [104, 101, 108, 108, 111, 44, 32, 115, 97, 105, 108, 111, 114]

/-- TryOpenPipe: CreateFileA on the named pipe.  pipeAvailable determines
whether CreateFileA yields a valid handle (the collector is listening).  On
failure gPipe is set to null and false is returned.  On success the greeting
is written through WriteToPipe with its result discarded, and true is
returned. -/
def TryOpenPipe (st : SysState) (pipeAvailable : Bool)
    (greetOk : Bool) (greetWritten : Nat) : Bool × SysState :=
  if pipeAvailable then
    let st1 := { st with gPipe := some () }
    let w := WriteToPipe st1 greeting greetOk greetWritten
    (true, w.2)
  else
    (false, { st with gPipe := none })

/-- ClosePipe: closes the handle if present and nulls gPipe. -/
def ClosePipe (st : SysState) : SysState :=
  { st with gPipe := none }

/-- RtlAllocateHeapHook: calls the original entry point through the
gRtlAllocateHeapOrig pointer (calling through a null pointer is a crash,
modelled as none), builds AllocData from the (uint32) casts of size and the
returned pointer, serializes it into a fresh local Vec — and returns the
original result.  The serialized message is a local that goes out of scope:
the source never hands it to WriteToPipe. -/
def RtlAllocateHeapHook (st : SysState) (heapHandle flags size : Nat) :
    Option (Nat × SysState) :=
  match st.gRtlAllocateHeapOrig with
  | none => none
  | some orig =>
    let res := orig heapHandle flags size
    let d : AllocData := ⟨size % 2 ^ 32, res % 2 ^ 32⟩
    let msg := SerializeType (AllocData.mem d) allocDataTypeInfo []
    let _ := msg
    some (res, st)

/-- RtlFreeHeapHook: calls the original through gRtlFreeHeapOrig (null is a
crash, modelled as none), builds FreeData from the (uint32) cast of heapBase,
serializes it into a fresh local Vec and returns the original result; as in
the allocation hook, the message is discarded without a send. -/
def RtlFreeHeapHook (st : SysState) (heapHandle flags heapBase : Nat) :
    Option (Bool × SysState) :=
  match st.gRtlFreeHeapOrig with
  | none => none
  | some orig =>
    let res := orig heapHandle flags heapBase
    let d : FreeData := ⟨heapBase % 2 ^ 32⟩
    let msg := SerializeType (FreeData.mem d) freeDataTypeInfo []
    let _ := msg
    some (res, st)

/-- The environment InstallHooks runs against: whether each AddHook call
succeeds, and the real underlying ntdll operations. -/
structure HookEnv where
  allocHookOk : Bool
  freeHookOk : Bool
  realAlloc : AllocFn
  realFree : FreeFn

/-- Modelled from the spec: nsWindowsDllInterceptor (Init/AddHook) is not
under src/.  Per the spec, addHook "locates the named export, rewrites its
entry so calls land in hookFn, and yields the previously-resident entry
point", "Returns a success flag", and on failure leaves the pass-through
pointer of that operation unset.  InstallHooks calls AddHook for RtlAllocateHeap
and RtlFreeHeap; each success stores the original pointer in its slot and
marks that entry point as rewritten; each failure is only logged. -/
def InstallHooks (st : SysState) (env : HookEnv) : SysState :=
  let st0 := { st with installHooksExecuted := true }
  let st1 :=
    if env.allocHookOk then
      { st0 with gRtlAllocateHeapOrig := some env.realAlloc, allocHookInstalled := true }
    else st0
  if env.freeHookOk then
    { st1 with gRtlFreeHeapOrig := some env.realFree, freeHookInstalled := true }
  else st1

/-- Modelled from the spec: what a call to the RtlAllocateHeap entry point
does after InstallHooks.  When AddHook succeeded the entry was rewritten so
the call lands in RtlAllocateHeapHook; when it failed the entry point was
left untouched, so the call executes the real underlying operation
directly. -/
def callRtlAllocateHeap (realAlloc : AllocFn) (st : SysState)
    (heapHandle flags size : Nat) : Option (Nat × SysState) :=
  if st.allocHookInstalled then RtlAllocateHeapHook st heapHandle flags size
  else some (realAlloc heapHandle flags size, st)

/-- Modelled from the spec: a call to the RtlFreeHeap entry point after
InstallHooks — through the hook when AddHook succeeded, directly to the real
operation when it failed. -/
def callRtlFreeHeap (realFree : FreeFn) (st : SysState)
    (heapHandle flags heapBase : Nat) : Option (Bool × SysState) :=
  if st.freeHookInstalled then RtlFreeHeapHook st heapHandle flags heapBase
  else some (realFree heapHandle flags heapBase, st)

/-- ProcessAttach: if TryOpenPipe fails, logs and returns FALSE — without
running InstallHooks.  Only when the pipe opened does it run InstallHooks
and return TRUE. -/
def ProcessAttach (st : SysState) (pipeAvailable greetOk : Bool)
    (greetWritten : Nat) (env : HookEnv) : Bool × SysState :=
  let t := TryOpenPipe st pipeAvailable greetOk greetWritten
  if !t.1 then (false, t.2)
  else (true, InstallHooks t.2 env)

/-- ProcessDetach: closes the pipe. -/
def ProcessDetach (st : SysState) : Bool × SysState :=
  (true, ClosePipe st)

/-- One heap operation performed by the traced program (a call reaching one
of the two intercepted entry points). -/
inductive HookEvent where
  | alloc (heapHandle flags size : Nat)
  | free (heapHandle flags heapBase : Nat)

/-- Run one heap operation through the (possibly hooked) entry points. -/
def runEvent (realAlloc : AllocFn) (realFree : FreeFn) (st : SysState) :
    HookEvent → Option SysState
  | HookEvent.alloc h f s =>
    (callRtlAllocateHeap realAlloc st h f s).map (fun r => r.2)
  | HookEvent.free h f b =>
    (callRtlFreeHeap realFree st h f b).map (fun r => r.2)

/-- Run a sequence of heap operations; none propagates a crash. -/
def runEvents (realAlloc : AllocFn) (realFree : FreeFn) (st : SysState) :
    List HookEvent → Option SysState
  | [] => some st
  | e :: es =>
    match runEvent realAlloc realFree st e with
    | none => none
    | some st1 => runEvents realAlloc realFree st1 es

/-- The concrete HookEnv used for closed evaluations: both AddHook calls
succeed; the real allocator returns pointer 4096, the real free returns
TRUE. -/
def someEnv : HookEnv :=
  ⟨true, true, fun _ _ _ => 4096, fun _ _ _ => true⟩

/-- A partial-failure HookEnv: AddHook fails for RtlAllocateHeap while the
RtlFreeHeap hook installs. -/
def allocFailEnv : HookEnv :=
  ⟨false, true, fun _ _ _ => 7, fun _ _ _ => true⟩

/-- The opposite partial-failure HookEnv: the RtlAllocateHeap hook installs
while AddHook fails for RtlFreeHeap. -/
def freeFailEnv : HookEnv :=
  ⟨true, false, fun _ _ _ => 9, fun _ _ _ => false⟩

/-- The globals after a successful ProcessAttach in someEnv: live pipe, the
greeting already attempted (one send attempt), both hooks installed. -/
def liveState : SysState :=
  { gPipe := some ()
    pipeBytes := greeting
    sendAttempts := 1
    gRtlAllocateHeapOrig := some (fun _ _ _ => 4096)
    gRtlFreeHeapOrig := some (fun _ _ _ => true)
    allocHookInstalled := true
    freeHookInstalled := true
    installHooksExecuted := true }

end MemTrace

namespace MemTrace

/-- The concrete free-record scenario of the spec: FreeRecord{address=0x2000}
serializes to total length 8, kind 2, and the four little-endian address
bytes. -/
theorem serializeFree_concrete :
    SerializeType (FreeData.mem ⟨8192⟩) freeDataTypeInfo [] =
      [8, 0, 2, 0, 0, 32, 0, 0] := by decide

/-- Unfolding SerializeType: the reserved two bytes start as blanks, the
msgId bytes follow, the members are serialized after them, and the final
message is the patched uint16 length followed by everything after the two
reserved bytes.  The accumulated msgLen starts at 4 (2 reserved + 2 msgId
bytes). -/
theorem serializeType_eq (data : Nat → Byte) (ti : TypeSerializeInfo) (buf : List Byte) :
    SerializeType data ti buf =
      le16 ((4 + (serMembers data ti.members
          [0, 0, uint16mem ti.msgId.toNat 0, uint16mem ti.msgId.toNat 1]).2) % 65536) ++
        (serMembers data ti.members
          [0, 0, uint16mem ti.msgId.toNat 0, uint16mem ti.msgId.toNat 1]).1.drop 2 := rfl

/-- decode16 reads back exactly the patched little-endian uint16. -/
theorem decode16_le16_append (v : Nat) (rest : List Byte) :
    decode16 (le16 v ++ rest) = v % 65536 := by
  simp [decode16, le16]
  omega

/-- serMembers only appends: the output buffer length grows by exactly the
byte count it returns. -/
theorem serMembers_length (data : Nat → Byte) :
    ∀ (ms : List MemberSerializeInfo) (buf : List Byte),
      (serMembers data ms buf).1.length = buf.length + (serMembers data ms buf).2 := by
  intro ms
  induction ms with
  | nil => intro buf; simp [serMembers]
  | cons m rest ih =>
    intro buf
    by_cases hs : m.IsSentinel
    · simp [serMembers, hs]
    · cases m with
      | mk t off =>
        cases t <;>
          simp [serMembers, hs, SerNum16, SerNum32, MemberSerializeInfo.IsSentinel, ih] <;>
          omega

/-- The length field always holds the full message length reduced mod 2^16
(the (uint16) cast in the source). -/
theorem decode16_serializeType (data : Nat → Byte) (ti : TypeSerializeInfo)
    (buf : List Byte) :
    decode16 (SerializeType data ti buf) = (SerializeType data ti buf).length % 65536 := by
  rw [serializeType_eq, decode16_le16_append]
  have h := serMembers_length data ti.members
    [0, 0, uint16mem ti.msgId.toNat 0, uint16mem ti.msgId.toNat 1]
  simp only [List.length_append, List.length_drop, le16, List.length_cons,
    List.length_nil] at *
  omega

/-- C5: for every record serialized by the wire codec, the 16-bit length
field at byte offset 0 equals the total serialized byte count of the whole
message, including the 2-byte length field itself and the 2-byte msgId tag
(under the stated source assumption that the message is below 65536
bytes, enforced by the (uint16) cast). -/
theorem C5_totalLength_is_whole_message (data : Nat → Byte) (ti : TypeSerializeInfo)
    (buf : List Byte) (h : (SerializeType data ti buf).length < 65536) :
    decode16 (SerializeType data ti buf) = (SerializeType data ti buf).length := by
  rw [decode16_serializeType]
  exact Nat.mod_eq_of_lt h

/-- C5 witness: the AllocationRecord{size=64, address=0x1000} message is 12
bytes long and its length field decodes to 12. -/
theorem C5_totalLength_is_whole_message_witness :
    (SerializeType (AllocData.mem ⟨64, 4096⟩) allocDataTypeInfo []).length < 65536 ∧
    decode16 (SerializeType (AllocData.mem ⟨64, 4096⟩) allocDataTypeInfo []) =
      (SerializeType (AllocData.mem ⟨64, 4096⟩) allocDataTypeInfo []).length :=
  ⟨by decide, C5_totalLength_is_whole_message _ _ _ (by decide)⟩

/-- C4 is false as stated: for AllocationRecord{size=64, address=0x1000} the
length field decodes to 12, while the number of bytes following it is 10. -/
theorem C4_counterexample :
    ¬ decode16 (SerializeType (AllocData.mem ⟨64, 4096⟩) allocDataTypeInfo []) =
      ((SerializeType (AllocData.mem ⟨64, 4096⟩) allocDataTypeInfo []).drop 2).length := by
  decide

/-- C4 amended: the 16-bit totalLength at byte offset 0 equals the number of
bytes that follow it in the message plus the 2 bytes of the length field
itself — i.e. the whole message size, not the size excluding the field. -/
theorem C4_amended_totalLength (data : Nat → Byte) (ti : TypeSerializeInfo)
    (buf : List Byte) (h : (SerializeType data ti buf).length < 65536) :
    decode16 (SerializeType data ti buf) =
      ((SerializeType data ti buf).drop 2).length + 2 := by
  rw [decode16_serializeType, Nat.mod_eq_of_lt h]
  rw [serializeType_eq]
  have hm := serMembers_length data ti.members
    [0, 0, uint16mem ti.msgId.toNat 0, uint16mem ti.msgId.toNat 1]
  simp only [List.length_append, List.length_drop, le16, List.length_cons,
    List.length_nil] at *
  omega

/-- C4 witness: the FreeRecord{address=0x2000} message is 8 bytes, its
length field decodes to 8 = 6 bytes following + 2. -/
theorem C4_amended_totalLength_witness :
    (SerializeType (FreeData.mem ⟨8192⟩) freeDataTypeInfo []).length < 65536 ∧
    decode16 (SerializeType (FreeData.mem ⟨8192⟩) freeDataTypeInfo []) =
      ((SerializeType (FreeData.mem ⟨8192⟩) freeDataTypeInfo []).drop 2).length + 2 :=
  ⟨by decide, C4_amended_totalLength _ _ _ (by decide)⟩

/-- C6 is false as stated: the serialized AllocationRecord{size=64,
address=0x1000} message does not carry 8 in its length field. -/
theorem C6_counterexample :
    ¬ SerializeType (AllocData.mem ⟨64, 4096⟩) allocDataTypeInfo [] =
      [8, 0, 1, 0, 64, 0, 0, 0, 0, 16, 0, 0] := by decide

/-- C6 amended: the serialized bytes of AllocationRecord{size=64,
address=0x1000} are 0C 00 01 00 40 00 00 00 00 10 00 00 — kind tag, size and
address exactly as claimed, but the length field holds 12 (the whole message
size) rather than 8. -/
theorem C6_amended_concrete_bytes :
    SerializeType (AllocData.mem ⟨64, 4096⟩) allocDataTypeInfo [] =
      [12, 0, 1, 0, 64, 0, 0, 0, 0, 16, 0, 0] := by decide

/-- The member loop on the AllocData schema appends the four bytes of size
and then the four bytes of addr. -/
theorem serializeAlloc_members (d : AllocData) :
    (serMembers (AllocData.mem d) allocDataTypeInfo.members [0, 0, 1, 0]).1 =
      [0, 0, 1, 0,
       d.size / 1 % 256, d.size / 256 % 256, d.size / 65536 % 256,
       d.size / 16777216 % 256,
       d.addr / 1 % 256, d.addr / 256 % 256, d.addr / 65536 % 256,
       d.addr / 16777216 % 256] := rfl

/-- Serializing an AllocData record yields the patched length 12, the msgId
bytes 01 00, then the four little-endian bytes of size and of addr. -/
theorem serializeAlloc_eq (d : AllocData) (buf : List Byte) :
    SerializeType (AllocData.mem d) allocDataTypeInfo buf =
      [12, 0, 1, 0,
       d.size / 1 % 256, d.size / 256 % 256, d.size / 65536 % 256,
       d.size / 16777216 % 256,
       d.addr / 1 % 256, d.addr / 256 % 256, d.addr / 65536 % 256,
       d.addr / 16777216 % 256] := by
  have h1 : SerializeType (AllocData.mem d) allocDataTypeInfo buf =
      le16 12 ++
        (serMembers (AllocData.mem d) allocDataTypeInfo.members [0, 0, 1, 0]).1.drop 2 := rfl
  rw [h1, serializeAlloc_members]
  rfl

/-- C7: reading back, in native order, the 4 bytes at offset 4 and the 4
bytes at offset 8 of the serialized AllocationRecord message recovers
exactly the supplied 32-bit size and address. -/
theorem C7_alloc_roundtrip (size addr : Nat)
    (h1 : size < 4294967296) (h2 : addr < 4294967296) :
    read32 (SerializeType (AllocData.mem ⟨size, addr⟩) allocDataTypeInfo []) 4 = size ∧
    read32 (SerializeType (AllocData.mem ⟨size, addr⟩) allocDataTypeInfo []) 8 = addr := by
  rw [serializeAlloc_eq]
  constructor <;>
    · simp only [read32, List.getD_cons_succ, List.getD_cons_zero]
      omega

/-- C7 witness: the round trip at size=64, addr=4096. -/
theorem C7_alloc_roundtrip_witness :
    (64 : Nat) < 4294967296 ∧ (4096 : Nat) < 4294967296 ∧
    (read32 (SerializeType (AllocData.mem ⟨64, 4096⟩) allocDataTypeInfo []) 4 = 64 ∧
     read32 (SerializeType (AllocData.mem ⟨64, 4096⟩) allocDataTypeInfo []) 8 = 4096) :=
  ⟨by decide, by decide, C7_alloc_roundtrip 64 4096 (by decide) (by decide)⟩

/-- C8: SerializeType resets the output buffer first, so calling it twice in
a row into the same reused buffer produces identical contents, and the
output never depends on the prior contents of the buffer. -/
theorem C8_reused_buffer_identical (data : Nat → Byte) (ti : TypeSerializeInfo)
    (buf buf2 : List Byte) :
    SerializeType data ti (SerializeType data ti buf) = SerializeType data ti buf ∧
    SerializeType data ti buf = SerializeType data ti buf2 :=
  ⟨rfl, rfl⟩

/-- C1 is violated by the code: with a live channel (liveState has gPipe set
and exactly the one greeting send attempt), invoking either hook returns the
result of the original operation with the global state — in particular
sendAttempts and pipeBytes — completely unchanged: the serialized message is
discarded without any WriteToPipe call. -/
theorem C1_hooks_never_send :
    liveState.gPipe = some () ∧
    liveState.sendAttempts = 1 ∧
    RtlAllocateHeapHook liveState 1 0 64 = some (4096, liveState) ∧
    RtlFreeHeapHook liveState 1 0 4096 = some (true, liveState) ∧
    (ProcessAttach initState true true 13 someEnv).2 = liveState :=
  ⟨rfl, rfl, rfl, rfl, rfl⟩

/-- C2: independently per entry point — whatever happened to the other hook
— if AddHook failed for an entry point (so its original-pointer slot stays
null and its entry was not rewritten), an invocation of that intercepted
entry point still executes the real underlying operation and returns its
result: it neither crashes nor dereferences the null original pointer (a
null call is modelled as none; the result here is some). -/
theorem C2_failed_hook_passthrough (env : HookEnv) (h f s b : Nat) :
    (env.allocHookOk = false →
      callRtlAllocateHeap env.realAlloc (InstallHooks initState env) h f s =
        some (env.realAlloc h f s, InstallHooks initState env)) ∧
    (env.freeHookOk = false →
      callRtlFreeHeap env.realFree (InstallHooks initState env) h f b =
        some (env.realFree h f b, InstallHooks initState env)) := by
  obtain ⟨a, fOk, ra, rf⟩ := env
  constructor
  · intro ha
    subst ha
    cases fOk <;> rfl
  · intro hf
    subst hf
    cases a <;> rfl

/-- C2 witness: both partial-failure configurations.  In allocFailEnv only
the allocation AddHook fails and a call to RtlAllocateHeap passes through to
the real allocator; in freeFailEnv only the free AddHook fails and a call to
RtlFreeHeap passes through to the real free. -/
theorem C2_failed_hook_passthrough_witness :
    allocFailEnv.allocHookOk = false ∧
    callRtlAllocateHeap allocFailEnv.realAlloc (InstallHooks initState allocFailEnv) 1 2 3 =
      some (allocFailEnv.realAlloc 1 2 3, InstallHooks initState allocFailEnv) ∧
    freeFailEnv.freeHookOk = false ∧
    callRtlFreeHeap freeFailEnv.realFree (InstallHooks initState freeFailEnv) 1 2 4 =
      some (freeFailEnv.realFree 1 2 4, InstallHooks initState freeFailEnv) :=
  ⟨rfl, (C2_failed_hook_passthrough allocFailEnv 1 2 3 4).1 rfl,
   rfl, (C2_failed_hook_passthrough freeFailEnv 1 2 3 4).2 rfl⟩

/-- C3 is false as stated: when the collector is absent (TryOpenPipe fails),
ProcessAttach returns FALSE and InstallHooks is never executed. -/
theorem C3_counterexample :
    (ProcessAttach initState false true 0 someEnv).1 = false ∧
    (ProcessAttach initState false true 0 someEnv).2.installHooksExecuted = false :=
  ⟨rfl, rfl⟩

/-- C3 amended: hook installation is gated on connect success — starting
from the initial state, ProcessAttach executes InstallHooks exactly when
TryOpenPipe succeeds, and its BOOL result equals the connect outcome. -/
theorem C3_amended_hooks_gated_on_connect (avail greetOk : Bool) (w : Nat)
    (env : HookEnv) :
    (ProcessAttach initState avail greetOk w env).1 = avail ∧
    (ProcessAttach initState avail greetOk w env).2.installHooksExecuted = avail := by
  obtain ⟨a, fOk, ra, rf⟩ := env
  cases avail <;> cases a <;> cases fOk <;> exact ⟨rfl, rfl⟩

/-- Running any sequence of heap operations from the inert initial state
(no hooks installed) leaves the state untouched and never crashes. -/
theorem runEvents_initState (ra : AllocFn) (rf : FreeFn) :
    ∀ evs : List HookEvent, runEvents ra rf initState evs = some initState := by
  intro evs
  have h1 : initState.allocHookInstalled = false := rfl
  have h2 : initState.freeHookInstalled = false := rfl
  induction evs with
  | nil => rfl
  | cons e es ih =>
    cases e <;>
      simp [runEvents, runEvent, callRtlAllocateHeap, callRtlFreeHeap, h1, h2, ih]

/-- C9: when the initial TryOpenPipe fails, the post-attach state has a null
pipe, zero bytes and zero attempts on the send path; any number of
subsequent heap operations completes without crash and leaves the state —
hence the send counters — unchanged, and WriteToPipe on that state writes
nothing and returns false for every payload. -/
theorem C9_failed_connect_silent (greetOk : Bool) (w : Nat) (env : HookEnv)
    (evs : List HookEvent) (ra : AllocFn) (rf : FreeFn) :
    (ProcessAttach initState false greetOk w env).2.gPipe = none ∧
    (ProcessAttach initState false greetOk w env).2.pipeBytes = [] ∧
    (ProcessAttach initState false greetOk w env).2.sendAttempts = 0 ∧
    runEvents ra rf (ProcessAttach initState false greetOk w env).2 evs =
      some (ProcessAttach initState false greetOk w env).2 ∧
    (∀ (s : List Byte) (wOk : Bool) (wr : Nat),
      WriteToPipe (ProcessAttach initState false greetOk w env).2 s wOk wr =
        (false, (ProcessAttach initState false greetOk w env).2)) := by
  have hst : (ProcessAttach initState false greetOk w env).2 = initState := rfl
  rw [hst]
  exact ⟨rfl, rfl, rfl, runEvents_initState ra rf evs, fun s wOk wr => rfl⟩

/-- C10: TryOpenPipe reports success exactly when CreateFileA yields a
handle, for every outcome of the greeting write: the WriteToPipe result for
the greeting is discarded, so connect success is independent of handshake
delivery. -/
theorem C10_connect_ignores_greeting_outcome (st : SysState)
    (pipeAvailable greetOk : Bool) (w : Nat) :
    (TryOpenPipe st pipeAvailable greetOk w).1 = pipeAvailable := by
  cases pipeAvailable <;> rfl

end MemTrace
